import Mathlib

set_option autoImplicit false

/-! Shallow embedding of the two scripts of this repository:
    `restcountries.py` (a REST client that renders country tables) and
    `ebay.py` (a product-page scraper with file/console output).
    External effects (HTTP responses, the browser/DOM, the file system,
    stdout) are modelled as explicit inputs and outputs of the functions. -/

namespace RestCountries

/-- Argument accepted by `get_by_code` / `get_by_listcodes`
    (Python `Union[int, str]`). -/
inductive CodeArg where
  | int (n : Int)
  | str (s : String)
deriving DecidableEq, Repr

/-- A value stored in the request-parameter dict `_fields`. -/
inductive PValue where
  | str (s : String)
  | strList (l : List String)
  | codeList (l : List CodeArg)
deriving DecidableEq, Repr

/-- A Python dict with string keys, kept in insertion order. -/
abbrev Params := List (String × PValue)

/-- Python dict lookup `d.get(k)`. -/
def dictLookup (d : Params) (k : String) : Option PValue :=
  match d with
  | [] => none
  | (k1, v) :: rest => if k1 = k then some v else dictLookup rest k

/-- Python dict assignment `d[k] = v`: replaces the value in place when the
    key exists, otherwise appends the new key at the end (insertion order). -/
def dictSet (d : Params) (k : String) (v : PValue) : Params :=
  match d with
  | [] => [(k, v)]
  | (k1, v1) :: rest =>
      if k1 = k then (k, v) :: rest else (k1, v1) :: dictSet rest k v

/-- The `name` object of a decoded country record. -/
structure NameObj where
  common : String
  official : String
deriving DecidableEq, Repr

/-- The `flags` object of a decoded country record. -/
structure FlagsObj where
  png : String
  svg : String
deriving DecidableEq, Repr

/-- One country object as decoded from the API with the default field
    selection `name,capital,flags`. -/
structure CountryJson where
  name : NameObj
  capital : List String
  flags : FlagsObj
deriving DecidableEq, Repr

/-- The `capital` entry of a record after `_print_table`'s normalization
    loop: a plain string when the list had length 0 or 1, otherwise the
    untouched list. -/
inductive CapitalDisp where
  | str (s : String)
  | list (l : List String)
deriving DecidableEq, Repr

/-- A country dict after the mutating loop in `_print_table`, projected to
    the three displayed columns. -/
structure CountryRow where
  name : String
  capital : CapitalDisp
  flags : String
deriving DecidableEq, Repr

/-- Body of the `for country in data` loop of `_print_table`:
    `country["name"] = country["name"]["common"]`; the capital list is
    collapsed to `"None"` when its length is 0, to its sole element
    `country["capital"][0]` when its length is 1, and is left unchanged
    otherwise; `country["flags"] = country["flags"]["png"]`. -/
def normalizeCountry (country : CountryJson) : CountryRow :=
  { name := country.name.common
  , capital :=
      if country.capital.length = 0 then CapitalDisp.str "None"
      else if country.capital.length = 1 then CapitalDisp.str country.capital.headI
      else CapitalDisp.list country.capital
  , flags := country.flags.png }

/-- `_print_table(data)`: mutates every record of `data` in place and then
    prints the records as a DataFrame with columns `[name, capital, flags]`,
    one row per record.  The returned list is simultaneously the caller's
    list after the call (the dicts are mutated, not copied) and the rendered
    table rows. -/
def print_table (data : List CountryJson) : List CountryRow :=
  data.map normalizeCountry

/-- The class attribute `_main_url`. -/
def main_url : String := "https://restcountries.com/v3.1"

/-- Initial value of the class attribute `_fields`.  This dict is stored on
    the class, and `self._fields[k] = v` mutates that one class-level dict,
    shared by every instance of `RestCountries`; the model therefore threads
    a single `Params` state through all calls, on whatever instance. -/
def fields_init : Params := [("fields", PValue.strList ["name", "capital", "flags"])]

/-- An HTTP response as consumed by `_get_request`: the status code, the
    result of `response.json()` (`none` when decoding raises
    `JSONDecodeError`), and the body text used in the error log line.
    `α` is the decoded shape the endpoint returns. -/
structure Response (α : Type) where
  status_code : Nat
  json : Option α
  text : String
deriving DecidableEq, Repr

/-- The parameters `requests.get` is called with inside `_get_request`:
    the explicit `params` when one was passed, else the shared default dict
    `self._fields`. -/
def sent_params (fields : Params) (params : Option Params) : Params :=
  match params with
  | none => fields
  | some p => p

/-- Response handling of `_get_request`: on status 200 (`requests.codes.ok`)
    return `response.json()`, or `None` after a logged `JSONDecodeError`;
    on any other status log the url and body text and return `None`. -/
def request_result {α : Type} (resp : Response α) : Option α :=
  if resp.status_code = 200 then
    match resp.json with
    | some result => some result
    | none => none
  else none

/-- What one call of `_get_request` amounts to: which parameters were sent
    with the GET, and what was returned to the caller. -/
structure GetOutcome (α : Type) where
  sentParams : Params
  result : Option α
deriving DecidableEq, Repr

/-- `_get_request(url, params)`.  The url is fixed by each caller; the
    response delivered by the network is an input of the model. -/
def get_request {α : Type} (fields : Params) (params : Option Params)
    (resp : Response α) : GetOutcome α :=
  ⟨sent_params fields params, request_result resp⟩

/-- Decoded body of the `alpha/{code}` endpoint: a JSON array, or a single
    country object (`get_by_code` branches on `isinstance(res, list)`). -/
inductive AlphaBody where
  | arr (countries : List CountryJson)
  | obj (country : CountryJson)
deriving DecidableEq, Repr

/-- Python truthiness of `res` for the array endpoints: `None` and `[]` are
    falsy, a non-empty list is truthy. -/
def res_truthy : Option (List CountryJson) → Bool
  | none => false
  | some res => !res.isEmpty

/-- Python truthiness of `res` for `get_by_code`: a decoded single object is
    a dict with the three selected fields, hence non-empty and truthy. -/
def alpha_truthy : Option AlphaBody → Bool
  | none => false
  | some (.arr res) => !res.isEmpty
  | some (.obj _) => true

/-- The observable outcome of one public entry point: the url requested, the
    parameters sent with the GET, the table printed (if any), the boolean
    operation status returned, and the class-level `_fields` dict after the
    call. -/
structure MethodResult where
  url : String
  sentParams : Params
  table : Option (List CountryRow)
  status : Bool
  fields : Params
deriving DecidableEq, Repr

/-- `get_all()`: GET `<base>/all` with the default parameters; if the result
    is truthy print the table and return True, else return False. -/
def get_all (st : Params) (resp : Response (List CountryJson)) : MethodResult :=
  let url := String.intercalate "/" [main_url, "all"]
  let g := get_request st none resp
  match g.result with
  | some res =>
      if res.isEmpty then ⟨url, g.sentParams, none, false, st⟩
      else ⟨url, g.sentParams, some (print_table res), true, st⟩
  | none => ⟨url, g.sentParams, none, false, st⟩

/-- `get_by_name(name)`: GET `<base>/name/<name>` with the default
    parameters. -/
def get_by_name (st : Params) (name : String)
    (resp : Response (List CountryJson)) : MethodResult :=
  let url := String.intercalate "/" [main_url, "name", name]
  let g := get_request st none resp
  match g.result with
  | some res =>
      if res.isEmpty then ⟨url, g.sentParams, none, false, st⟩
      else ⟨url, g.sentParams, some (print_table res), true, st⟩
  | none => ⟨url, g.sentParams, none, false, st⟩

/-- `get_by_fullname(fullname)`: GET `<base>/name/<fullname>`, after first
    executing `self._fields["fullText"] = "true"` — an in-place mutation of
    the shared class-level dict — and passing that same dict as the explicit
    `params`. -/
def get_by_fullname (st : Params) (fullname : String)
    (resp : Response (List CountryJson)) : MethodResult :=
  let url := String.intercalate "/" [main_url, "name", fullname]
  let st1 := dictSet st "fullText" (PValue.str "true")
  let g := get_request st1 (some st1) resp
  match g.result with
  | some res =>
      if res.isEmpty then ⟨url, g.sentParams, none, false, st1⟩
      else ⟨url, g.sentParams, some (print_table res), true, st1⟩
  | none => ⟨url, g.sentParams, none, false, st1⟩

/-- `if isinstance(code, int): code = str(code)` in `get_by_code`. -/
def codeToStr : CodeArg → String
  | .int n => toString n
  | .str s => s

/-- `get_by_code(code)`: GET `<base>/alpha/<code>` with the default
    parameters; a decoded list is printed as is, a decoded single object is
    wrapped into a one-element list before printing. -/
def get_by_code (st : Params) (code : CodeArg)
    (resp : Response AlphaBody) : MethodResult :=
  let code1 := codeToStr code
  let url := String.intercalate "/" [main_url, "alpha", code1]
  let g := get_request st none resp
  match g.result with
  | some (.arr res) =>
      if res.isEmpty then ⟨url, g.sentParams, none, false, st⟩
      else ⟨url, g.sentParams, some (print_table res), true, st⟩
  | some (.obj c) => ⟨url, g.sentParams, some (print_table [c]), true, st⟩
  | none => ⟨url, g.sentParams, none, false, st⟩

/-- `get_by_listcodes(code)`: GET `<base>/alpha`, after first executing
    `self._fields["codes"] = code` — an in-place mutation of the shared
    class-level dict — and passing that same dict as the explicit
    `params`. -/
def get_by_listcodes (st : Params) (code : List CodeArg)
    (resp : Response (List CountryJson)) : MethodResult :=
  let url := String.intercalate "/" [main_url, "alpha"]
  let st1 := dictSet st "codes" (PValue.codeList code)
  let g := get_request st1 (some st1) resp
  match g.result with
  | some res =>
      if res.isEmpty then ⟨url, g.sentParams, none, false, st1⟩
      else ⟨url, g.sentParams, some (print_table res), true, st1⟩
  | none => ⟨url, g.sentParams, none, false, st1⟩

/-- `get_by_currency(code)`: GET `<base>/currency/<code>` with the default
    parameters. -/
def get_by_currency (st : Params) (code : String)
    (resp : Response (List CountryJson)) : MethodResult :=
  let url := String.intercalate "/" [main_url, "currency", code]
  let g := get_request st none resp
  match g.result with
  | some res =>
      if res.isEmpty then ⟨url, g.sentParams, none, false, st⟩
      else ⟨url, g.sentParams, some (print_table res), true, st⟩
  | none => ⟨url, g.sentParams, none, false, st⟩

/-- `get_by_demonym(demonym)`: GET `<base>/demonym/<demonym>` with the
    default parameters. -/
def get_by_demonym (st : Params) (demonym : String)
    (resp : Response (List CountryJson)) : MethodResult :=
  let url := String.intercalate "/" [main_url, "demonym", demonym]
  let g := get_request st none resp
  match g.result with
  | some res =>
      if res.isEmpty then ⟨url, g.sentParams, none, false, st⟩
      else ⟨url, g.sentParams, some (print_table res), true, st⟩
  | none => ⟨url, g.sentParams, none, false, st⟩

/-- `get_by_lang(lang)`: GET `<base>/lang/<lang>` with the default
    parameters. -/
def get_by_lang (st : Params) (lang : String)
    (resp : Response (List CountryJson)) : MethodResult :=
  let url := String.intercalate "/" [main_url, "lang", lang]
  let g := get_request st none resp
  match g.result with
  | some res =>
      if res.isEmpty then ⟨url, g.sentParams, none, false, st⟩
      else ⟨url, g.sentParams, some (print_table res), true, st⟩
  | none => ⟨url, g.sentParams, none, false, st⟩

/-- `get_by_capital(capital)`: GET `<base>/capital/<capital>` with the
    default parameters. -/
def get_by_capital (st : Params) (capital : String)
    (resp : Response (List CountryJson)) : MethodResult :=
  let url := String.intercalate "/" [main_url, "capital", capital]
  let g := get_request st none resp
  match g.result with
  | some res =>
      if res.isEmpty then ⟨url, g.sentParams, none, false, st⟩
      else ⟨url, g.sentParams, some (print_table res), true, st⟩
  | none => ⟨url, g.sentParams, none, false, st⟩

/-- `get_by_region(region)`: GET `<base>/region/<region>` with the default
    parameters. -/
def get_by_region (st : Params) (region : String)
    (resp : Response (List CountryJson)) : MethodResult :=
  let url := String.intercalate "/" [main_url, "region", region]
  let g := get_request st none resp
  match g.result with
  | some res =>
      if res.isEmpty then ⟨url, g.sentParams, none, false, st⟩
      else ⟨url, g.sentParams, some (print_table res), true, st⟩
  | none => ⟨url, g.sentParams, none, false, st⟩

/-- `get_by_subregion(subregion)`: GET `<base>/subregion/<subregion>` with
    the default parameters. -/
def get_by_subregion (st : Params) (subregion : String)
    (resp : Response (List CountryJson)) : MethodResult :=
  let url := String.intercalate "/" [main_url, "subregion", subregion]
  let g := get_request st none resp
  match g.result with
  | some res =>
      if res.isEmpty then ⟨url, g.sentParams, none, false, st⟩
      else ⟨url, g.sentParams, some (print_table res), true, st⟩
  | none => ⟨url, g.sentParams, none, false, st⟩

/-- `get_by_translation(translation)`: GET `<base>/translation/<translation>`
    with the default parameters. -/
def get_by_translation (st : Params) (translation : String)
    (resp : Response (List CountryJson)) : MethodResult :=
  let url := String.intercalate "/" [main_url, "translation", translation]
  let g := get_request st none resp
  match g.result with
  | some res =>
      if res.isEmpty then ⟨url, g.sentParams, none, false, st⟩
      else ⟨url, g.sentParams, some (print_table res), true, st⟩
  | none => ⟨url, g.sentParams, none, false, st⟩

end RestCountries

namespace EBay

/-- Exceptions relevant to the output writers.  `jsonDecodeError` models
    `json.JSONDecodeError` (the class named in the `except` clauses);
    `typeError` models `TypeError`, which is what `json.dumps` raises on a
    value it cannot serialize. -/
inductive JsonExc where
  | typeError (msg : String)
  | jsonDecodeError (msg : String)
deriving DecidableEq, Repr

/-- A Python value handed to `json.dumps`.  `obj` stands for any object the
    JSON encoder does not support (a set, a driver handle, ...). -/
inductive PyVal where
  | str (s : String)
  | int (n : Int)
  | list (elts : List PyVal)
  | dict (entries : List (String × PyVal))
  | obj (clsName : String)

/-- JSON rendering of a string value (escaping abstracted: the scraped
    fields carry no characters that need escapes, and the claims rely on
    determinism, not on the exact layout). -/
def jstr (s : String) : String := "\"" ++ s ++ "\""

mutual

/-- Modelled external contract of `json.dumps(data, indent=4)`: a
    deterministic rendering of a serializable value, raising `TypeError`
    ("Object of type ... is not JSON serializable") on an unsupported
    object.  The `indent=4` layout is abstracted to a one-line rendering;
    the claims rely on determinism and on the exception behaviour, not on
    whitespace. -/
def dumps : PyVal → Except JsonExc String
  | .str s => .ok (jstr s)
  | .int n => .ok (toString n)
  | .obj clsName =>
      .error (.typeError ("Object of type " ++ clsName ++ " is not JSON serializable"))
  | .list elts =>
      match dumpsList elts with
      | .ok parts => .ok ("[" ++ String.intercalate ", " parts ++ "]")
      | .error e => .error e
  | .dict entries =>
      match dumpsEntries entries with
      | .ok parts => .ok ("\x7b" ++ String.intercalate ", " parts ++ "\x7d")
      | .error e => .error e

/-- Renders the elements of a JSON array, propagating the first failure. -/
def dumpsList : List PyVal → Except JsonExc (List String)
  | [] => .ok []
  | v :: rest =>
      match dumps v with
      | .error e => .error e
      | .ok s =>
          match dumpsList rest with
          | .error e => .error e
          | .ok ss => .ok (s :: ss)

/-- Renders the entries of a JSON object, propagating the first failure. -/
def dumpsEntries : List (String × PyVal) → Except JsonExc (List String)
  | [] => .ok []
  | (k, v) :: rest =>
      match dumps v with
      | .error e => .error e
      | .ok s =>
          match dumpsEntries rest with
          | .error e => .error e
          | .ok ss => .ok ((jstr k ++ ": " ++ s) :: ss)

end

/-- Observable outcome of one call of `write_to_file`: the contents of
    `temp.json` after the call, the console lines printed, and the exception
    that propagated out of the method, if any. -/
structure WriteFileResult where
  file : String
  console : List String
  raised : Option JsonExc
deriving DecidableEq, Repr

/-- `EBay.write_to_file(data)`: `open(self.path_file, "w")` truncates the
    file first; then `f.write(json.dumps(data, indent=4))` runs inside a
    `try` whose only handler is `except json.JSONDecodeError`.  A
    `TypeError` raised by `json.dumps` is therefore not caught and
    propagates to the caller, leaving the file empty.  `oldFile` is the file
    contents before the call; mode `"w"` discards it on every path. -/
def write_to_file (data : PyVal) (_oldFile : String) : WriteFileResult :=
  match dumps data with
  | .ok s => ⟨s, [], none⟩
  | .error (.jsonDecodeError m) => ⟨"", ["JSONDecodeError " ++ m], none⟩
  | .error e => ⟨"", [], some e⟩

/-- Observable outcome of one call of `write_to_console`. -/
structure WriteConsoleResult where
  console : List String
  raised : Option JsonExc
deriving DecidableEq, Repr

/-- `EBay.write_to_console(data)`: `print(json.dumps(data, indent=4))`
    inside a `try` whose only handler is `except json.JSONDecodeError`; a
    `TypeError` from `json.dumps` propagates. -/
def write_to_console (data : PyVal) : WriteConsoleResult :=
  match dumps data with
  | .ok s => ⟨[s], none⟩
  | .error (.jsonDecodeError m) => ⟨["JSONDecodeError " ++ m], none⟩
  | .error e => ⟨[], some e⟩

/-- Exceptions arising in `scrapper`: `noSuchElement` is selenium's
    `NoSuchElementException`, `timeout` its `TimeoutException`, and `other`
    any other exception (e.g. a `WebDriverException` from navigation). -/
inductive ScrapeExc where
  | noSuchElement
  | timeout
  | other (name : String)
deriving DecidableEq, Repr

/-- Result of one DOM lookup: the value found, or the exception the lookup
    raised. -/
inductive Lookup (α : Type) where
  | found (a : α)
  | exc (e : ScrapeExc)
deriving DecidableEq, Repr

/-- One `img` element inside the image carousel;
    `get_attribute("data-zoom-src")` returns `None` when the attribute is
    absent. -/
structure CarouselImage where
  data_zoom_src : Option String
deriving DecidableEq, Repr

/-- The page as `scrapper` observes it through the driver: the outcome of
    `browser.get(url)` (`none` when navigation succeeds, otherwise the
    exception it raised), the outcome of the 10-second wait for the title
    element, and the outcomes of the four remaining lookups.
    `carousel` is the container lookup; its inner `find_elements` call never
    raises and yields the listed images. -/
structure Page where
  nav : Option ScrapeExc
  title : Lookup String
  carousel : Lookup (List CarouselImage)
  price : Lookup String
  seller : Lookup String
  shipping : Lookup String
deriving DecidableEq, Repr

/-- The scraped record (keys `name, path_img, current_url, price, seller,
    shipping_cost` of the `data` dict). -/
structure ProductData where
  name : String
  path_img : List (Option String)
  current_url : String
  price : String
  seller : String
  shipping_cost : String
deriving DecidableEq, Repr

/-- How `scrapper` exits: a normal return (the record, or Python `None`), or
    an exception that propagates to the caller. -/
inductive ScrapReturn where
  | value (d : Option ProductData)
  | exc (e : ScrapeExc)
deriving DecidableEq, Repr

/-- Observable outcome of one `scrapper` call: how it exits and how many
    times `self.browser.quit()` ran. -/
structure ScrapResult where
  ret : ScrapReturn
  quits : Nat
deriving DecidableEq, Repr

/-- `EBay.scrapper(url)`.  `self.browser.get(url)` runs before the
    `try`/`finally`, so an exception there propagates without any
    `browser.quit()`.  Inside the `try`: the inner
    `except TimeoutException` converts a timeout of the title wait into a
    raised `NoSuchElementException`; the five lookups run in order; the
    outer `except NoSuchElementException` logs and returns `None`; the
    `else` returns the record; the `finally` calls `self.browser.quit()`
    exactly once on every path that reaches the `try`. -/
def scrapper (page : Page) (url : String) : ScrapResult :=
  match page.nav with
  | some e => ⟨.exc e, 0⟩
  | none =>
    let titleRes : Lookup String :=
      match page.title with
      | .exc .timeout => .exc .noSuchElement
      | r => r
    let body : Lookup ProductData :=
      match titleRes with
      | .exc e => .exc e
      | .found name =>
        match page.carousel with
        | .exc e => .exc e
        | .found imgs =>
          let path_img := imgs.map (fun img => img.data_zoom_src)
          match page.price with
          | .exc e => .exc e
          | .found price =>
            match page.seller with
            | .exc e => .exc e
            | .found seller =>
              match page.shipping with
              | .exc e => .exc e
              | .found shipping_cost =>
                .found ⟨name, path_img, url, price, seller, shipping_cost⟩
    match body with
    | .found d => ⟨.value (some d), 1⟩
    | .exc .noSuchElement => ⟨.value none, 1⟩
    | .exc e => ⟨.exc e, 1⟩

end EBay

namespace RestCountries

/-- The table printed by an array endpoint, as a function of the value
    `_get_request` returned (used to state the result of each method in one
    equation). -/
def table_of (r : Option (List CountryJson)) : Option (List CountryRow) :=
  match r with
  | some res => if res.isEmpty then none else some (print_table res)
  | none => none

/-- Same as `table_of` for `get_by_code`, which wraps a decoded single
    object into a one-element list before printing. -/
def alpha_table_of (r : Option AlphaBody) : Option (List CountryRow) :=
  match r with
  | some (.arr res) => if res.isEmpty then none else some (print_table res)
  | some (.obj c) => some (print_table [c])
  | none => none

/-- A decoded `alpha` body that is truthy in Python: a non-empty array, or a
    single (non-empty) country object. -/
def body_nonempty : AlphaBody → Prop
  | .arr cs => cs ≠ []
  | .obj _ => True

/-- The right-hand side of the operation-status mapping: status 200 and a
    decoded non-empty array. -/
def ok_nonempty (resp : Response (List CountryJson)) : Prop :=
  resp.status_code = 200 ∧ ∃ cs, resp.json = some cs ∧ cs ≠ []

/-- A concrete country record, for witnesses. -/
def sample_country : CountryJson :=
  ⟨⟨"Estonia", "Republic of Estonia"⟩, ["Tallinn"],
   ⟨"https://flagcdn.com/w320/ee.png", "https://flagcdn.com/ee.svg"⟩⟩

/-- A concrete 404 response, for witnesses and counterexamples. -/
def resp_404 : Response (List CountryJson) := ⟨404, none, "Not Found"⟩

/-- A concrete 200 response carrying one record, for witnesses. -/
def resp_one : Response (List CountryJson) := ⟨200, some [sample_country], "body"⟩

/-- A concrete 404 response of the `alpha` endpoint, for witnesses. -/
def resp_alpha_404 : Response AlphaBody := ⟨404, none, "Not Found"⟩

end RestCountries

namespace EBay

/-- A record whose content is not serializable to JSON (its `name` entry is
    a Python `set`), for the C2 failing input. -/
def non_serializable_record : PyVal := .dict [("name", .obj "set")]

/-- The `data` dict built by `scrapper`, as handed to the writers: all five
    scraped fields are strings, and `path_img` is a list of strings. -/
def product_record (name : String) (path_img : List String)
    (current_url price seller shipping_cost : String) : PyVal :=
  .dict [("name", .str name),
         ("path_img", .list (path_img.map PyVal.str)),
         ("current_url", .str current_url),
         ("price", .str price),
         ("seller", .str seller),
         ("shipping_cost", .str shipping_cost)]

/-- A lookup that either found its element or raised
    `NoSuchElementException` (the claims' "present or absent" frame, which
    excludes unrelated driver errors). -/
def found_or_absent {α : Type} (l : Lookup α) : Prop :=
  l = .exc .noSuchElement ∨ ∃ v, l = .found v

/-- A page where navigation itself raises (for the C4 counterexample):
    `browser.get` runs before the `try`/`finally`. -/
def nav_fail_page : Page :=
  ⟨some (.other "WebDriverException"), .exc .timeout, .exc .noSuchElement,
   .exc .noSuchElement, .exc .noSuchElement, .exc .noSuchElement⟩

/-- A page that navigates fine but whose title wait times out, for
    witnesses. -/
def timeout_page : Page :=
  ⟨none, .exc .timeout, .found [], .found "US $10.00", .found "seller",
   .found "Free shipping"⟩

/-- A fully well-formed page, for witnesses. -/
def good_page : Page :=
  ⟨none, .found "Widget", .found [⟨some "https://i.ebayimg.com/a.jpg"⟩],
   .found "US $10.00", .found "seller", .found "Free shipping"⟩

/-- A page whose title is present but whose price element is absent, for
    witnesses. -/
def partial_page : Page :=
  ⟨none, .found "Widget", .found [], .exc .noSuchElement, .found "seller",
   .found "Free shipping"⟩

end EBay

/-! Shared lemmas about the embedded definitions. -/

namespace RestCountries

theorem dictLookup_dictSet_self (d : Params) (k : String) (v : PValue) :
    dictLookup (dictSet d k v) k = some v := by
  induction d with
  | nil => simp [dictSet, dictLookup]
  | cons p rest ih =>
      rcases p with ⟨k1, v1⟩
      by_cases h : k1 = k <;> simp [dictSet, dictLookup, h, ih]

theorem dictLookup_dictSet_ne (d : Params) (k k1 : String) (v : PValue)
    (h : k1 ≠ k) : dictLookup (dictSet d k1 v) k = dictLookup d k := by
  induction d with
  | nil => simp [dictSet, dictLookup, h]
  | cons p rest ih =>
      rcases p with ⟨k2, v2⟩
      by_cases h2 : k2 = k1
      · subst h2
        simp [dictSet, dictLookup, h]
      · simp only [dictSet, if_neg h2]
        by_cases h3 : k2 = k <;> simp [dictLookup, h3, ih]

theorem dictLookup_dictSet_isSome (d : Params) (k k1 : String) (v : PValue)
    (h : (dictLookup d k).isSome = true) :
    (dictLookup (dictSet d k1 v) k).isSome = true := by
  by_cases hk : k1 = k
  · subst hk; simp [dictLookup_dictSet_self]
  · rw [dictLookup_dictSet_ne d k k1 v hk]; exact h

theorem get_all_eq (st : Params) (resp : Response (List CountryJson)) :
    get_all st resp =
      ⟨String.intercalate "/" [main_url, "all"], st,
       table_of (request_result resp), res_truthy (request_result resp), st⟩ := by
  cases hr : request_result resp with
  | none => simp [get_all, get_request, sent_params, table_of, res_truthy, hr]
  | some res =>
      by_cases h : res.isEmpty <;>
        simp [get_all, get_request, sent_params, table_of, res_truthy, hr, h]

theorem get_by_name_eq (st : Params) (name : String)
    (resp : Response (List CountryJson)) :
    get_by_name st name resp =
      ⟨String.intercalate "/" [main_url, "name", name], st,
       table_of (request_result resp), res_truthy (request_result resp), st⟩ := by
  cases hr : request_result resp with
  | none => simp [get_by_name, get_request, sent_params, table_of, res_truthy, hr]
  | some res =>
      by_cases h : res.isEmpty <;>
        simp [get_by_name, get_request, sent_params, table_of, res_truthy, hr, h]

theorem get_by_fullname_eq (st : Params) (fullname : String)
    (resp : Response (List CountryJson)) :
    get_by_fullname st fullname resp =
      ⟨String.intercalate "/" [main_url, "name", fullname],
       dictSet st "fullText" (PValue.str "true"),
       table_of (request_result resp), res_truthy (request_result resp),
       dictSet st "fullText" (PValue.str "true")⟩ := by
  cases hr : request_result resp with
  | none => simp [get_by_fullname, get_request, sent_params, table_of, res_truthy, hr]
  | some res =>
      by_cases h : res.isEmpty <;>
        simp [get_by_fullname, get_request, sent_params, table_of, res_truthy, hr, h]

theorem get_by_code_eq (st : Params) (code : CodeArg) (resp : Response AlphaBody) :
    get_by_code st code resp =
      ⟨String.intercalate "/" [main_url, "alpha", codeToStr code], st,
       alpha_table_of (request_result resp), alpha_truthy (request_result resp), st⟩ := by
  cases hr : request_result resp with
  | none => simp [get_by_code, get_request, sent_params, alpha_table_of, alpha_truthy, hr]
  | some b =>
      cases b with
      | arr res =>
          by_cases h : res.isEmpty <;>
            simp [get_by_code, get_request, sent_params, alpha_table_of, alpha_truthy, hr, h]
      | obj c =>
          simp [get_by_code, get_request, sent_params, alpha_table_of, alpha_truthy, hr]

theorem get_by_listcodes_eq (st : Params) (code : List CodeArg)
    (resp : Response (List CountryJson)) :
    get_by_listcodes st code resp =
      ⟨String.intercalate "/" [main_url, "alpha"],
       dictSet st "codes" (PValue.codeList code),
       table_of (request_result resp), res_truthy (request_result resp),
       dictSet st "codes" (PValue.codeList code)⟩ := by
  cases hr : request_result resp with
  | none => simp [get_by_listcodes, get_request, sent_params, table_of, res_truthy, hr]
  | some res =>
      by_cases h : res.isEmpty <;>
        simp [get_by_listcodes, get_request, sent_params, table_of, res_truthy, hr, h]

theorem get_by_currency_eq (st : Params) (code : String)
    (resp : Response (List CountryJson)) :
    get_by_currency st code resp =
      ⟨String.intercalate "/" [main_url, "currency", code], st,
       table_of (request_result resp), res_truthy (request_result resp), st⟩ := by
  cases hr : request_result resp with
  | none => simp [get_by_currency, get_request, sent_params, table_of, res_truthy, hr]
  | some res =>
      by_cases h : res.isEmpty <;>
        simp [get_by_currency, get_request, sent_params, table_of, res_truthy, hr, h]

theorem get_by_demonym_eq (st : Params) (demonym : String)
    (resp : Response (List CountryJson)) :
    get_by_demonym st demonym resp =
      ⟨String.intercalate "/" [main_url, "demonym", demonym], st,
       table_of (request_result resp), res_truthy (request_result resp), st⟩ := by
  cases hr : request_result resp with
  | none => simp [get_by_demonym, get_request, sent_params, table_of, res_truthy, hr]
  | some res =>
      by_cases h : res.isEmpty <;>
        simp [get_by_demonym, get_request, sent_params, table_of, res_truthy, hr, h]

theorem get_by_lang_eq (st : Params) (lang : String)
    (resp : Response (List CountryJson)) :
    get_by_lang st lang resp =
      ⟨String.intercalate "/" [main_url, "lang", lang], st,
       table_of (request_result resp), res_truthy (request_result resp), st⟩ := by
  cases hr : request_result resp with
  | none => simp [get_by_lang, get_request, sent_params, table_of, res_truthy, hr]
  | some res =>
      by_cases h : res.isEmpty <;>
        simp [get_by_lang, get_request, sent_params, table_of, res_truthy, hr, h]

theorem get_by_capital_eq (st : Params) (capital : String)
    (resp : Response (List CountryJson)) :
    get_by_capital st capital resp =
      ⟨String.intercalate "/" [main_url, "capital", capital], st,
       table_of (request_result resp), res_truthy (request_result resp), st⟩ := by
  cases hr : request_result resp with
  | none => simp [get_by_capital, get_request, sent_params, table_of, res_truthy, hr]
  | some res =>
      by_cases h : res.isEmpty <;>
        simp [get_by_capital, get_request, sent_params, table_of, res_truthy, hr, h]

theorem get_by_region_eq (st : Params) (region : String)
    (resp : Response (List CountryJson)) :
    get_by_region st region resp =
      ⟨String.intercalate "/" [main_url, "region", region], st,
       table_of (request_result resp), res_truthy (request_result resp), st⟩ := by
  cases hr : request_result resp with
  | none => simp [get_by_region, get_request, sent_params, table_of, res_truthy, hr]
  | some res =>
      by_cases h : res.isEmpty <;>
        simp [get_by_region, get_request, sent_params, table_of, res_truthy, hr, h]

theorem get_by_subregion_eq (st : Params) (subregion : String)
    (resp : Response (List CountryJson)) :
    get_by_subregion st subregion resp =
      ⟨String.intercalate "/" [main_url, "subregion", subregion], st,
       table_of (request_result resp), res_truthy (request_result resp), st⟩ := by
  cases hr : request_result resp with
  | none => simp [get_by_subregion, get_request, sent_params, table_of, res_truthy, hr]
  | some res =>
      by_cases h : res.isEmpty <;>
        simp [get_by_subregion, get_request, sent_params, table_of, res_truthy, hr, h]

theorem get_by_translation_eq (st : Params) (translation : String)
    (resp : Response (List CountryJson)) :
    get_by_translation st translation resp =
      ⟨String.intercalate "/" [main_url, "translation", translation], st,
       table_of (request_result resp), res_truthy (request_result resp), st⟩ := by
  cases hr : request_result resp with
  | none => simp [get_by_translation, get_request, sent_params, table_of, res_truthy, hr]
  | some res =>
      by_cases h : res.isEmpty <;>
        simp [get_by_translation, get_request, sent_params, table_of, res_truthy, hr, h]

theorem res_truthy_request_iff (resp : Response (List CountryJson)) :
    res_truthy (request_result resp) = true ↔ ok_nonempty resp := by
  unfold ok_nonempty
  by_cases h : resp.status_code = 200
  · cases hj : resp.json with
    | none => simp [request_result, res_truthy, h, hj]
    | some cs =>
        simp [request_result, res_truthy, h, hj, List.isEmpty_iff]
  · simp [request_result, res_truthy, h]

theorem alpha_truthy_request_iff (resp : Response AlphaBody) :
    alpha_truthy (request_result resp) = true ↔
      resp.status_code = 200 ∧ ∃ b, resp.json = some b ∧ body_nonempty b := by
  by_cases h : resp.status_code = 200
  · cases hj : resp.json with
    | none => simp [request_result, alpha_truthy, h, hj]
    | some b =>
        cases b with
        | arr cs =>
            simp [request_result, alpha_truthy, h, hj, body_nonempty, List.isEmpty_iff]
        | obj c => simp [request_result, alpha_truthy, h, hj, body_nonempty]
  · simp [request_result, alpha_truthy, h]

theorem request_result_of_ok {α : Type} (resp : Response α) (x : α)
    (h200 : resp.status_code = 200) (hj : resp.json = some x) :
    request_result resp = some x := by
  simp [request_result, h200, hj]

end RestCountries

namespace EBay

theorem dumpsList_map_str (l : List String) :
    dumpsList (l.map PyVal.str) = .ok (l.map jstr) := by
  induction l with
  | nil => rfl
  | cons x xs ih => simp [dumpsList, dumps, ih]

theorem dumps_product_record_ok (name : String) (path_img : List String)
    (current_url price seller shipping_cost : String) :
    ∃ s, dumps (product_record name path_img current_url price seller shipping_cost)
      = .ok s := by
  simp [product_record, dumps, dumpsEntries, dumpsList_map_str]

end EBay

/-! Claim theorems. -/

/-- C7: the table normalization maps the name object to its common-name
    string, the capital list to the string "None" when empty, to its sole
    element when it has exactly one element, and leaves it unchanged when it
    has more than one element, and maps the flags object to its PNG URL
    string. -/
theorem c7_record_normalization (c : RestCountries.CountryJson) :
    (RestCountries.normalizeCountry c).name = c.name.common ∧
    (c.capital = [] →
      (RestCountries.normalizeCountry c).capital = RestCountries.CapitalDisp.str "None") ∧
    (∀ x, c.capital = [x] →
      (RestCountries.normalizeCountry c).capital = RestCountries.CapitalDisp.str x) ∧
    (1 < c.capital.length →
      (RestCountries.normalizeCountry c).capital = RestCountries.CapitalDisp.list c.capital) ∧
    (RestCountries.normalizeCountry c).flags = c.flags.png := by
  refine ⟨rfl, ?_, ?_, ?_, rfl⟩
  · intro h
    simp [RestCountries.normalizeCountry, h]
  · intro x h
    simp [RestCountries.normalizeCountry, h]
  · intro h
    have h0 : ¬ c.capital.length = 0 := by omega
    have h1 : ¬ c.capital.length = 1 := by omega
    simp [RestCountries.normalizeCountry, h0, h1]

/-- Witness for C7 at a concrete record with a one-element capital list. -/
theorem c7_record_normalization_witness :
    (RestCountries.normalizeCountry RestCountries.sample_country).capital =
      RestCountries.CapitalDisp.str "Tallinn" :=
  (c7_record_normalization RestCountries.sample_country).2.2.1 "Tallinn" rfl

/-- C9 (implicit): `_print_table` destructively mutates its input — after
    the call, the record at every index of the caller's list has its nested
    `name`, `capital` and `flags` values replaced by the flattened scalar
    display values. -/
theorem c9_print_table_mutation (data : List RestCountries.CountryJson)
    (i : Nat) (c : RestCountries.CountryJson) (h : data[i]? = some c) :
    (RestCountries.print_table data).length = data.length ∧
    (RestCountries.print_table data)[i]? = some
      { name := c.name.common
      , capital :=
          if c.capital.length = 0 then RestCountries.CapitalDisp.str "None"
          else if c.capital.length = 1 then RestCountries.CapitalDisp.str c.capital.headI
          else RestCountries.CapitalDisp.list c.capital
      , flags := c.flags.png } := by
  constructor
  · simp [RestCountries.print_table]
  · simp [RestCountries.print_table, List.getElem?_map, h, RestCountries.normalizeCountry]

/-- Witness for C9 at a concrete one-record list. -/
theorem c9_print_table_mutation_witness :
    (RestCountries.print_table [RestCountries.sample_country]).length = 1 ∧
    (RestCountries.print_table [RestCountries.sample_country])[0]? =
      some ⟨"Estonia", RestCountries.CapitalDisp.str "Tallinn",
            "https://flagcdn.com/w320/ee.png"⟩ := by
  have h := c9_print_table_mutation [RestCountries.sample_country] 0
    RestCountries.sample_country rfl
  simpa [RestCountries.sample_country] using h

/-- C2 (code bug, evaluated at the failing input): on a record that is not
    JSON-serializable, both writers let a `TypeError` propagate (the
    `except json.JSONDecodeError` handler does not match it) and print no
    diagnostic, instead of reporting the failure and returning normally. -/
theorem c2_serialization_typeerror_bug :
    (EBay.write_to_file EBay.non_serializable_record "").raised =
        some (EBay.JsonExc.typeError "Object of type set is not JSON serializable") ∧
    (EBay.write_to_file EBay.non_serializable_record "").console = [] ∧
    (EBay.write_to_console EBay.non_serializable_record).raised =
        some (EBay.JsonExc.typeError "Object of type set is not JSON serializable") ∧
    (EBay.write_to_console EBay.non_serializable_record).console = [] :=
  ⟨rfl, rfl, rfl, rfl⟩

/-- C8: writing the same (serializable) product record to the file sink
    twice produces byte-identical file contents after each call, and neither
    call raises. -/
theorem c8_file_sink_idempotent (name : String) (path_img : List String)
    (current_url price seller shipping_cost old : String) :
    (EBay.write_to_file
        (EBay.product_record name path_img current_url price seller shipping_cost)
        ((EBay.write_to_file
            (EBay.product_record name path_img current_url price seller shipping_cost)
            old).file)).file =
      (EBay.write_to_file
        (EBay.product_record name path_img current_url price seller shipping_cost)
        old).file ∧
    (EBay.write_to_file
        (EBay.product_record name path_img current_url price seller shipping_cost)
        old).raised = none := by
  obtain ⟨s, hs⟩ :=
    EBay.dumps_product_record_ok name path_img current_url price seller shipping_cost
  exact ⟨rfl, by simp [EBay.write_to_file, hs]⟩

/-- C4 counterexample: the claim says the browser handle is released exactly
    once on every exit path of `scrapper`, but `browser.get(url)` runs
    before the `try`/`finally`, so an exit caused by a navigation error
    releases the handle zero times. -/
theorem c4_nav_failure_counterexample :
    ¬ ((EBay.scrapper EBay.nav_fail_page "https://www.ebay.com/itm/404265004322").quits
        = 1) := by
  decide

/-- C4 (amended): once navigation has succeeded, a timeout of the title wait
    makes `scrapper` return the same absence signal (`None`) as a missing
    element — the two causes are indistinguishable in the result — and on
    every exit path after navigation (success, failure, or unexpected error)
    the browser handle is released exactly once. -/
theorem c4_timeout_absence_and_release (page : EBay.Page) (url : String)
    (hnav : page.nav = none) :
    (EBay.scrapper page url).quits = 1 ∧
    (page.title = EBay.Lookup.exc EBay.ScrapeExc.timeout →
      (EBay.scrapper page url).ret = EBay.ScrapReturn.value none ∧
      (EBay.scrapper page url).ret =
        (EBay.scrapper
          { page with title := EBay.Lookup.exc EBay.ScrapeExc.noSuchElement } url).ret) := by
  constructor
  · simp only [EBay.scrapper, hnav]
    split <;> rfl
  · intro ht
    refine ⟨?_, ?_⟩ <;> simp [EBay.scrapper, hnav, ht]

/-- Witness for the amended C4 at a concrete page whose title wait times
    out. -/
theorem c4_timeout_absence_and_release_witness :
    (EBay.scrapper EBay.timeout_page "https://www.ebay.com/itm/404265004322").quits = 1 ∧
    (EBay.scrapper EBay.timeout_page "https://www.ebay.com/itm/404265004322").ret =
      EBay.ScrapReturn.value none := by
  have h := c4_timeout_absence_and_release EBay.timeout_page
    "https://www.ebay.com/itm/404265004322" rfl
  exact ⟨h.1, (h.2 rfl).1⟩

/-- C5: when the title element is present but any one of the four remaining
    required reads finds its element absent (each read either succeeding or
    raising `NoSuchElementException`), `scrapper` returns the absence
    signal, never a partial record. -/
theorem c5_no_partial_records (page : EBay.Page) (url t : String)
    (hnav : page.nav = none) (htitle : page.title = EBay.Lookup.found t)
    (hc : EBay.found_or_absent page.carousel)
    (hp : EBay.found_or_absent page.price)
    (hs : EBay.found_or_absent page.seller)
    (hsh : EBay.found_or_absent page.shipping)
    (hmiss : page.carousel = EBay.Lookup.exc EBay.ScrapeExc.noSuchElement ∨
             page.price = EBay.Lookup.exc EBay.ScrapeExc.noSuchElement ∨
             page.seller = EBay.Lookup.exc EBay.ScrapeExc.noSuchElement ∨
             page.shipping = EBay.Lookup.exc EBay.ScrapeExc.noSuchElement) :
    (EBay.scrapper page url).ret = EBay.ScrapReturn.value none := by
  rcases hc with hc | ⟨vc, hc⟩ <;> rcases hp with hp | ⟨vp, hp⟩ <;>
    rcases hs with hs | ⟨vs, hs⟩ <;> rcases hsh with hsh | ⟨vsh, hsh⟩ <;>
      simp [EBay.scrapper, hnav, htitle, hc, hp, hs, hsh] at hmiss ⊢

/-- Witness for C5 at a concrete page whose price element is absent. -/
theorem c5_no_partial_records_witness :
    (EBay.scrapper EBay.partial_page "https://www.ebay.com/itm/404265004322").ret =
      EBay.ScrapReturn.value none :=
  c5_no_partial_records EBay.partial_page "https://www.ebay.com/itm/404265004322"
    "Widget" rfl rfl
    (Or.inr ⟨[], rfl⟩) (Or.inl rfl) (Or.inr ⟨"seller", rfl⟩)
    (Or.inr ⟨"Free shipping", rfl⟩) (Or.inr (Or.inl rfl))

/-- C6: on a well-formed page with all five required fields present,
    `scrapper` returns a record whose `current_url` equals the input url
    exactly and whose `path_img` list has one entry per carousel image
    element. -/
theorem c6_extraction_success (page : EBay.Page) (url t : String)
    (imgs : List EBay.CarouselImage) (p s sh : String)
    (hnav : page.nav = none) (htitle : page.title = EBay.Lookup.found t)
    (hcar : page.carousel = EBay.Lookup.found imgs)
    (hprice : page.price = EBay.Lookup.found p)
    (hsell : page.seller = EBay.Lookup.found s)
    (hship : page.shipping = EBay.Lookup.found sh) :
    ∃ d, (EBay.scrapper page url).ret = EBay.ScrapReturn.value (some d) ∧
      d.current_url = url ∧ d.path_img.length = imgs.length := by
  refine ⟨⟨t, imgs.map (fun img => img.data_zoom_src), url, p, s, sh⟩, ?_, rfl, by simp⟩
  simp [EBay.scrapper, hnav, htitle, hcar, hprice, hsell, hship]

/-- Witness for C6 at a concrete well-formed page. -/
theorem c6_extraction_success_witness :
    ∃ d, (EBay.scrapper EBay.good_page "https://www.ebay.com/itm/404265004322").ret =
        EBay.ScrapReturn.value (some d) ∧
      d.current_url = "https://www.ebay.com/itm/404265004322" ∧
      d.path_img.length = 1 := by
  have h := c6_extraction_success EBay.good_page "https://www.ebay.com/itm/404265004322"
    "Widget" [⟨some "https://i.ebayimg.com/a.jpg"⟩] "US $10.00" "seller" "Free shipping"
    rfl rfl rfl rfl rfl rfl
  simpa using h

/-- C1 (code bug, evaluated at the failing input): after
    `get_by_fullname("Germany")`, a subsequent `get_by_name("Peru")` sends
    `fullText=true` in its request parameters — the key added to the shared
    class-level `_fields` dict leaks into the later default-parameter call,
    contrary to the per-call isolation the claim states. -/
theorem c1_fulltext_leak_bug :
    RestCountries.dictLookup
      (RestCountries.get_by_name
        (RestCountries.get_by_fullname RestCountries.fields_init "Germany"
          RestCountries.resp_404).fields
        "Peru" RestCountries.resp_404).sentParams
      "fullText" = some (RestCountries.PValue.str "true") := by
  rw [RestCountries.get_by_fullname_eq, RestCountries.get_by_name_eq]
  exact RestCountries.dictLookup_dictSet_self RestCountries.fields_init "fullText" _

/-- C3: every public entry point returns True iff the response has status
    200 and decodes to a non-empty result (for `get_by_code` a non-empty
    array or a single object), and False on an empty array, a non-200
    status, or a decode failure; when True, the printed table has one row
    per array element (stated for `get_by_name`). -/
theorem c3_operation_status_mapping (st : RestCountries.Params)
    (resp : RestCountries.Response (List RestCountries.CountryJson))
    (respA : RestCountries.Response RestCountries.AlphaBody)
    (name fullname currency demonym lang capital region subregion translation : String)
    (codes : List RestCountries.CodeArg) (code : RestCountries.CodeArg) :
    ((RestCountries.get_all st resp).status = true ↔ RestCountries.ok_nonempty resp) ∧
    ((RestCountries.get_by_name st name resp).status = true ↔
      RestCountries.ok_nonempty resp) ∧
    ((RestCountries.get_by_fullname st fullname resp).status = true ↔
      RestCountries.ok_nonempty resp) ∧
    ((RestCountries.get_by_listcodes st codes resp).status = true ↔
      RestCountries.ok_nonempty resp) ∧
    ((RestCountries.get_by_currency st currency resp).status = true ↔
      RestCountries.ok_nonempty resp) ∧
    ((RestCountries.get_by_demonym st demonym resp).status = true ↔
      RestCountries.ok_nonempty resp) ∧
    ((RestCountries.get_by_lang st lang resp).status = true ↔
      RestCountries.ok_nonempty resp) ∧
    ((RestCountries.get_by_capital st capital resp).status = true ↔
      RestCountries.ok_nonempty resp) ∧
    ((RestCountries.get_by_region st region resp).status = true ↔
      RestCountries.ok_nonempty resp) ∧
    ((RestCountries.get_by_subregion st subregion resp).status = true ↔
      RestCountries.ok_nonempty resp) ∧
    ((RestCountries.get_by_translation st translation resp).status = true ↔
      RestCountries.ok_nonempty resp) ∧
    ((RestCountries.get_by_code st code respA).status = true ↔
      (respA.status_code = 200 ∧
        ∃ b, respA.json = some b ∧ RestCountries.body_nonempty b)) ∧
    (∀ cs, resp.status_code = 200 → resp.json = some cs → cs ≠ [] →
      (RestCountries.get_by_name st name resp).table =
        some (RestCountries.print_table cs) ∧
      (RestCountries.print_table cs).length = cs.length) := by
  refine ⟨?_, ?_, ?_, ?_, ?_, ?_, ?_, ?_, ?_, ?_, ?_, ?_, ?_⟩
  · rw [RestCountries.get_all_eq]
    exact RestCountries.res_truthy_request_iff resp
  · rw [RestCountries.get_by_name_eq]
    exact RestCountries.res_truthy_request_iff resp
  · rw [RestCountries.get_by_fullname_eq]
    exact RestCountries.res_truthy_request_iff resp
  · rw [RestCountries.get_by_listcodes_eq]
    exact RestCountries.res_truthy_request_iff resp
  · rw [RestCountries.get_by_currency_eq]
    exact RestCountries.res_truthy_request_iff resp
  · rw [RestCountries.get_by_demonym_eq]
    exact RestCountries.res_truthy_request_iff resp
  · rw [RestCountries.get_by_lang_eq]
    exact RestCountries.res_truthy_request_iff resp
  · rw [RestCountries.get_by_capital_eq]
    exact RestCountries.res_truthy_request_iff resp
  · rw [RestCountries.get_by_region_eq]
    exact RestCountries.res_truthy_request_iff resp
  · rw [RestCountries.get_by_subregion_eq]
    exact RestCountries.res_truthy_request_iff resp
  · rw [RestCountries.get_by_translation_eq]
    exact RestCountries.res_truthy_request_iff resp
  · rw [RestCountries.get_by_code_eq]
    exact RestCountries.alpha_truthy_request_iff respA
  · intro cs h200 hj hne
    have hr := RestCountries.request_result_of_ok resp cs h200 hj
    have hE : cs.isEmpty = false := by simp [List.isEmpty_iff, hne]
    constructor
    · rw [RestCountries.get_by_name_eq]
      simp [RestCountries.table_of, hr, hE]
    · simp [RestCountries.print_table]

/-- Witness for C3 at a concrete 200 response with one record. -/
theorem c3_operation_status_witness :
    (RestCountries.get_by_name RestCountries.fields_init "Peru"
        RestCountries.resp_one).status = true ∧
    (RestCountries.get_by_name RestCountries.fields_init "Peru"
        RestCountries.resp_one).table =
      some (RestCountries.print_table [RestCountries.sample_country]) ∧
    (RestCountries.print_table [RestCountries.sample_country]).length = 1 := by
  have h := c3_operation_status_mapping RestCountries.fields_init RestCountries.resp_one
    RestCountries.resp_alpha_404 "Peru" "Germany" "cop" "peruvian" "spanish" "tallinn"
    "europe" "Northern Europe" "germany" [] (RestCountries.CodeArg.str "col")
  refine ⟨?_, ?_, ?_⟩
  · apply h.2.1.mpr
    unfold RestCountries.ok_nonempty
    exact ⟨rfl, [RestCountries.sample_country], rfl, by simp⟩
  · exact (h.2.2.2.2.2.2.2.2.2.2.2.2 [RestCountries.sample_country] rfl rfl (by simp)).1
  · exact (h.2.2.2.2.2.2.2.2.2.2.2.2 [RestCountries.sample_country] rfl rfl (by simp)).2

/-- C10 (implicit): `_fields` is mutated in place at class level, so the key
    installed by `get_by_fullname` (or `get_by_listcodes`) is present in the
    shared dict afterwards, is sent with the request parameters of every
    subsequent call that uses the shared dict (on any instance — there is
    one dict per class), and is never removed by any of the twelve
    methods. -/
theorem c10_shared_fields_state (st : RestCountries.Params) (v : RestCountries.PValue)
    (resp resp2 : RestCountries.Response (List RestCountries.CountryJson))
    (respA : RestCountries.Response RestCountries.AlphaBody)
    (fullname nm currency demonym lang capital region subregion translation : String)
    (codes : List RestCountries.CodeArg) (code : RestCountries.CodeArg) :
    RestCountries.dictLookup (RestCountries.get_by_fullname st fullname resp).fields
        "fullText" = some (RestCountries.PValue.str "true") ∧
    RestCountries.dictLookup (RestCountries.get_by_listcodes st codes resp).fields
        "codes" = some (RestCountries.PValue.codeList codes) ∧
    RestCountries.dictLookup
        (RestCountries.get_by_name (RestCountries.get_by_fullname st fullname resp).fields
          nm resp2).sentParams "fullText" = some (RestCountries.PValue.str "true") ∧
    (RestCountries.dictLookup st "fullText" = some v →
      RestCountries.dictLookup (RestCountries.get_all st resp2).sentParams
          "fullText" = some v ∧
      RestCountries.dictLookup (RestCountries.get_by_name st nm resp2).sentParams
          "fullText" = some v ∧
      RestCountries.dictLookup (RestCountries.get_by_code st code respA).sentParams
          "fullText" = some v ∧
      RestCountries.dictLookup (RestCountries.get_by_currency st currency resp2).sentParams
          "fullText" = some v ∧
      RestCountries.dictLookup (RestCountries.get_by_demonym st demonym resp2).sentParams
          "fullText" = some v ∧
      RestCountries.dictLookup (RestCountries.get_by_lang st lang resp2).sentParams
          "fullText" = some v ∧
      RestCountries.dictLookup (RestCountries.get_by_capital st capital resp2).sentParams
          "fullText" = some v ∧
      RestCountries.dictLookup (RestCountries.get_by_region st region resp2).sentParams
          "fullText" = some v ∧
      RestCountries.dictLookup (RestCountries.get_by_subregion st subregion resp2).sentParams
          "fullText" = some v ∧
      RestCountries.dictLookup (RestCountries.get_by_translation st translation resp2).sentParams
          "fullText" = some v ∧
      RestCountries.dictLookup (RestCountries.get_by_listcodes st codes resp2).sentParams
          "fullText" = some v) ∧
    (∀ k, (RestCountries.dictLookup st k).isSome = true →
      (RestCountries.dictLookup (RestCountries.get_all st resp2).fields k).isSome = true ∧
      (RestCountries.dictLookup (RestCountries.get_by_name st nm resp2).fields k).isSome
        = true ∧
      (RestCountries.dictLookup (RestCountries.get_by_fullname st fullname resp2).fields
        k).isSome = true ∧
      (RestCountries.dictLookup (RestCountries.get_by_code st code respA).fields k).isSome
        = true ∧
      (RestCountries.dictLookup (RestCountries.get_by_listcodes st codes resp2).fields
        k).isSome = true ∧
      (RestCountries.dictLookup (RestCountries.get_by_currency st currency resp2).fields
        k).isSome = true ∧
      (RestCountries.dictLookup (RestCountries.get_by_demonym st demonym resp2).fields
        k).isSome = true ∧
      (RestCountries.dictLookup (RestCountries.get_by_lang st lang resp2).fields k).isSome
        = true ∧
      (RestCountries.dictLookup (RestCountries.get_by_capital st capital resp2).fields
        k).isSome = true ∧
      (RestCountries.dictLookup (RestCountries.get_by_region st region resp2).fields
        k).isSome = true ∧
      (RestCountries.dictLookup (RestCountries.get_by_subregion st subregion resp2).fields
        k).isSome = true ∧
      (RestCountries.dictLookup (RestCountries.get_by_translation st translation resp2).fields
        k).isSome = true) := by
  refine ⟨?_, ?_, ?_, ?_, ?_⟩
  · rw [RestCountries.get_by_fullname_eq]
    exact RestCountries.dictLookup_dictSet_self st "fullText" _
  · rw [RestCountries.get_by_listcodes_eq]
    exact RestCountries.dictLookup_dictSet_self st "codes" _
  · rw [RestCountries.get_by_fullname_eq, RestCountries.get_by_name_eq]
    exact RestCountries.dictLookup_dictSet_self st "fullText" _
  · intro hv
    refine ⟨?_, ?_, ?_, ?_, ?_, ?_, ?_, ?_, ?_, ?_, ?_⟩
    · rw [RestCountries.get_all_eq]; exact hv
    · rw [RestCountries.get_by_name_eq]; exact hv
    · rw [RestCountries.get_by_code_eq]; exact hv
    · rw [RestCountries.get_by_currency_eq]; exact hv
    · rw [RestCountries.get_by_demonym_eq]; exact hv
    · rw [RestCountries.get_by_lang_eq]; exact hv
    · rw [RestCountries.get_by_capital_eq]; exact hv
    · rw [RestCountries.get_by_region_eq]; exact hv
    · rw [RestCountries.get_by_subregion_eq]; exact hv
    · rw [RestCountries.get_by_translation_eq]; exact hv
    · rw [RestCountries.get_by_listcodes_eq]
      rw [RestCountries.dictLookup_dictSet_ne st "fullText" "codes" _ (by decide)]
      exact hv
  · intro k hk
    refine ⟨?_, ?_, ?_, ?_, ?_, ?_, ?_, ?_, ?_, ?_, ?_, ?_⟩
    · rw [RestCountries.get_all_eq]; exact hk
    · rw [RestCountries.get_by_name_eq]; exact hk
    · rw [RestCountries.get_by_fullname_eq]
      exact RestCountries.dictLookup_dictSet_isSome st k "fullText" _ hk
    · rw [RestCountries.get_by_code_eq]; exact hk
    · rw [RestCountries.get_by_listcodes_eq]
      exact RestCountries.dictLookup_dictSet_isSome st k "codes" _ hk
    · rw [RestCountries.get_by_currency_eq]; exact hk
    · rw [RestCountries.get_by_demonym_eq]; exact hk
    · rw [RestCountries.get_by_lang_eq]; exact hk
    · rw [RestCountries.get_by_capital_eq]; exact hk
    · rw [RestCountries.get_by_region_eq]; exact hk
    · rw [RestCountries.get_by_subregion_eq]; exact hk
    · rw [RestCountries.get_by_translation_eq]; exact hk

/-- Witness for C10: with `fullText` installed in the shared dict, a
    concrete `get_all` sends it, and nothing removed the pre-existing
    `fields` key during a concrete `get_by_fullname`. -/
theorem c10_shared_fields_state_witness :
    RestCountries.dictLookup
      (RestCountries.get_all
        (RestCountries.dictSet RestCountries.fields_init "fullText"
          (RestCountries.PValue.str "true"))
        RestCountries.resp_404).sentParams "fullText"
      = some (RestCountries.PValue.str "true") ∧
    (RestCountries.dictLookup
      (RestCountries.get_by_fullname
        (RestCountries.dictSet RestCountries.fields_init "fullText"
          (RestCountries.PValue.str "true"))
        "Germany" RestCountries.resp_404).fields "fields").isSome = true := by
  have h := c10_shared_fields_state
    (RestCountries.dictSet RestCountries.fields_init "fullText"
      (RestCountries.PValue.str "true"))
    (RestCountries.PValue.str "true")
    RestCountries.resp_404 RestCountries.resp_404 RestCountries.resp_alpha_404
    "Germany" "Peru" "cop" "peruvian" "spanish" "tallinn" "europe" "Northern Europe"
    "germany" [] (RestCountries.CodeArg.str "col")
  exact ⟨(h.2.2.2.1 (by decide)).1, (h.2.2.2.2 "fields" (by decide)).2.2.1⟩
